import Mathlib

/-!
# Verification of the synthetic-data service core

Shallow embedding of the computational core of the repository:

* `data_masking.py` — recursive, structure-preserving parameter masking
  (`generate_synthetic_params`, `_mask_generic_value`, `_mask_name_list`,
  `_mask_country_list`);
* `plagiarism_checker.py` — recursive structural similarity
  (`_normalized_levenshtein`, `_list_similarity`, `_value_similarity`,
  `generate_plagiarism_report`, `_risk_from_score`);
* `synthetic_generator.py` — dataset schemas and the tiered privacy
  transformation (`_apply_privacy_transformations` and the five
  `_generate_*` schema builders).

Modelling conventions:

* Python JSON values become the inductive type `Json`; Python `None` and
  JSON `null` are the single constructor `Json.null` (they are the very same
  value `None` in the Python runtime).
* A JSON *text* input (`Optional[str]` in Python) is modelled by its parse
  outcome `JsonText`: `missing` covers `None` and the empty string (both are
  falsy, so `if not params_json` treats them alike), `invalid s` a non-empty
  text on which `json.loads` raises, and `valid j` a text parsing to `j`.
* Randomness (the `faker` generator and `random`/`numpy` draws) is passed in
  as explicit oracle functions; every theorem quantifies over the oracles.
* Python floats become `ℚ`; `round(x, 4)` becomes `round4`.
-/

/-- A parsed JSON value (`json.loads` result).  Python `None`/JSON `null`
are both `null`. -/
inductive Json where
  | null : Json
  | bool (b : Bool) : Json
  | num (q : ℚ) : Json
  | str (s : String) : Json
  | arr (elems : List Json) : Json
  | obj (fields : List (String × Json)) : Json

mutual

/-- Structural equality of JSON values, modelling Python `==` on the results
of `json.loads` (which never mixes types that compare equal, apart from
`bool`/`int`, a pair `json.loads` keeps distinct anyway). -/
def Json.beq : Json → Json → Bool
  | .null, .null => true
  | .bool a, .bool b => a == b
  | .num a, .num b => a == b
  | .str a, .str b => a == b
  | .arr a, .arr b => Json.beqList a b
  | .obj a, .obj b => Json.beqFields a b
  | _, _ => false

/-- Element-wise structural equality of JSON lists. -/
def Json.beqList : List Json → List Json → Bool
  | [], [] => true
  | a :: as, b :: bs => Json.beq a b && Json.beqList as bs
  | _, _ => false

/-- Field-wise structural equality of JSON mappings. -/
def Json.beqFields : List (String × Json) → List (String × Json) → Bool
  | [], [] => true
  | (k, v) :: as, (l, w) :: bs => k == l && Json.beq v w && Json.beqFields as bs
  | _, _ => false

end

mutual

theorem Json.beq_refl : ∀ a : Json, Json.beq a a = true
  | .null => rfl
  | .bool b => by simp [Json.beq]
  | .num q => by simp [Json.beq]
  | .str s => by simp [Json.beq]
  | .arr vs => by simp [Json.beq, Json.beqList_refl vs]
  | .obj fs => by simp [Json.beq, Json.beqFields_refl fs]

theorem Json.beqList_refl : ∀ vs : List Json, Json.beqList vs vs = true
  | [] => rfl
  | v :: vs => by simp [Json.beqList, Json.beq_refl v, Json.beqList_refl vs]

theorem Json.beqFields_refl : ∀ fs : List (String × Json), Json.beqFields fs fs = true
  | [] => rfl
  | (k, v) :: fs => by simp [Json.beqFields, Json.beq_refl v, Json.beqFields_refl fs]

end

/-- `None == x` in Python is true exactly for `x = None` (JSON `null`). -/
theorem Json.beq_null_iff : ∀ a : Json, Json.beq .null a = true ↔ a = .null := by
  intro a
  cases a <;> simp [Json.beq]

/-- The parse outcome of an `Optional[str]` JSON text argument:
`missing` for `None` or `""` (both falsy), `invalid` for text on which
`json.loads` raises, `valid j` for text parsing to `j`. -/
inductive JsonText where
  | missing : JsonText
  | invalid (s : String) : JsonText
  | valid (j : Json) : JsonText

namespace JsonText

/-- `bool(text)` in Python: `False` exactly for `None` and `""`. -/
def present : JsonText → Bool
  | .missing => false
  | _ => true

end JsonText

/-! ## `data_masking.py` -/

namespace DataMasking

/-- The fixed 20-country pool of `_mask_country_list`. -/
def country_pool : List String :=
  ["USA", "India", "Brazil", "Mexico", "Canada", "Germany", "France",
   "Spain", "Italy", "Australia", "Japan", "South Korea", "UK", "Netherlands",
   "Sweden", "Norway", "Denmark", "Finland", "China", "South Africa"]

/-- `_mask_name_list`: replace every element by a freshly drawn fake name.
`nm` is the name oracle (`_fake.name()`), consumed left to right from
counter `k`. -/
def mask_name_list (nm : Nat → String) (vs : List Json) (k : Nat) : List Json :=
  vs.enum.map fun p => Json.str (nm (k + p.1))

/-- `_mask_country_list`: replace every element by a uniformly chosen pool
country.  `ch` is the `random.choice` oracle, giving the chosen index. -/
def mask_country_list (ch : Nat → Nat) (vs : List Json) (k : Nat) : List Json :=
  vs.enum.map fun p => Json.str (country_pool.getD (ch (k + p.1) % country_pool.length) "")

mutual

/-- `_mask_generic_value`: strings are replaced by a fresh word (`w` is the
`_fake.word()` oracle with counter `k`), numbers and booleans kept
(`isinstance(value, (int, float))` is true for `bool` in Python), lists and
mappings recursed into, anything else (null) kept. -/
def mask_generic_value (w : Nat → String) : Json → Nat → Json × Nat
  | .str _, k => (.str (w k), k + 1)
  | .num q, k => (.num q, k)
  | .bool b, k => (.bool b, k)
  | .null, k => (.null, k)
  | .arr vs, k =>
    let r := mask_generic_list w vs k
    (.arr r.1, r.2)
  | .obj fs, k =>
    let r := mask_generic_fields w fs k
    (.obj r.1, r.2)

/-- Element-wise generic masking of a list, threading the oracle counter. -/
def mask_generic_list (w : Nat → String) : List Json → Nat → List Json × Nat
  | [], k => ([], k)
  | v :: vs, k =>
    let r := mask_generic_value w v k
    let rs := mask_generic_list w vs r.2
    (r.1 :: rs.1, rs.2)

/-- Key-preserving generic masking of a mapping's fields. -/
def mask_generic_fields (w : Nat → String) :
    List (String × Json) → Nat → List (String × Json) × Nat
  | [], k => ([], k)
  | (key, v) :: fs, k =>
    let r := mask_generic_value w v k
    let rs := mask_generic_fields w fs r.2
    ((key, r.1) :: rs.1, rs.2)

end

/-- `key.lower()`: character-wise lowercasing (`String.toLower` is the
position-based implementation of exactly this map). -/
def lowerKey (s : String) : String := String.mk (s.data.map Char.toLower)

/-- The per-key dispatch of `generate_synthetic_params`' loop body. -/
def mask_field (w nm : Nat → String) (ch : Nat → Nat) (key : String) (v : Json) (k : Nat) :
    Json × Nat :=
  match v with
  | .arr vs =>
    if lowerKey key = "name" then (.arr (mask_name_list nm vs k), k + vs.length)
    else if lowerKey key = "country" then (.arr (mask_country_list ch vs k), k + vs.length)
    else mask_generic_value w (.arr vs) k
  | v => mask_generic_value w v k

/-- The loop of `generate_synthetic_params` over the top-level items. -/
def mask_top_fields (w nm : Nat → String) (ch : Nat → Nat) :
    List (String × Json) → Nat → List (String × Json)
  | [], _ => []
  | (key, v) :: fs, k =>
    let r := mask_field w nm ch key v k
    (key, r.1) :: mask_top_fields w nm ch fs r.2

/-- `generate_synthetic_params`: `None`/empty/unparseable input → `None`;
parsed non-mapping top level → `None`; otherwise mask each top-level field,
special-casing case-insensitive keys `"name"` and `"country"` with list
values.  (The final `json.dumps` serialisation step is dropped: we return
the synthetic tree itself.) -/
def generate_synthetic_params (w nm : Nat → String) (ch : Nat → Nat) :
    JsonText → Option Json
  | .missing => none
  | .invalid _ => none
  | .valid j =>
    match j with
    | .obj fs => some (.obj (mask_top_fields w nm ch fs 0))
    | _ => none

end DataMasking

/-! ## `plagiarism_checker.py` -/

namespace Plagiarism

/-- `_normalized_levenshtein`: equal strings → `1.0`; one side empty → `0.0`;
otherwise `1 - dist / max(len_a, len_b)` where `dist` is computed by the
single-row dynamic program (embedded as `levenshtein` over the unit cost
structure, which is that same row-by-row DP). -/
def normalized_levenshtein (a b : String) : ℚ :=
  if a = b then 1
  else if a = "" ∨ b = "" then 0
  else 1 - ((levenshtein Levenshtein.defaultCost a.toList b.toList : ℕ) : ℚ) /
    ((max a.length b.length : ℕ) : ℚ)

/-- The classical Levenshtein recurrence with unit insert/delete/substitute
costs (the specification-side definition of edit distance). -/
def levRec : List Char → List Char → ℕ
  | [], ys => ys.length
  | x :: xs, [] => (x :: xs).length
  | x :: xs, y :: ys =>
    min (levRec xs (y :: ys) + 1)
      (min (levRec (x :: xs) ys + 1) (levRec xs ys + (if x = y then 0 else 1)))
termination_by xs ys => xs.length + ys.length

theorem levenshtein_nil_eq (ys : List Char) :
    levenshtein Levenshtein.defaultCost [] ys = ys.length := by
  induction ys with
  | nil => simp
  | cons y ys ih => simp [ih, Nat.add_comm]

theorem levenshtein_cons_nil_eq (xs : List Char) :
    levenshtein Levenshtein.defaultCost xs [] = xs.length := by
  induction xs with
  | nil => simp
  | cons x xs ih => simp [ih, Nat.add_comm]

/-- The row-by-row dynamic program agrees with the classical recurrence. -/
theorem levRec_eq_levenshtein : ∀ xs ys : List Char,
    levRec xs ys = levenshtein Levenshtein.defaultCost xs ys
  | [], ys => by rw [levRec, levenshtein_nil_eq]
  | x :: xs, [] => by rw [levRec, levenshtein_cons_nil_eq]
  | x :: xs, y :: ys => by
    rw [levRec, levRec_eq_levenshtein xs (y :: ys), levRec_eq_levenshtein (x :: xs) ys,
      levRec_eq_levenshtein xs ys, levenshtein_cons_cons]
    simp [Nat.add_comm]
termination_by xs ys => xs.length + ys.length

theorem levRec_le_max : ∀ xs ys : List Char, levRec xs ys ≤ max xs.length ys.length
  | [], ys => by rw [levRec]; omega
  | x :: xs, [] => by rw [levRec]; omega
  | x :: xs, y :: ys => by
    have h := levRec_le_max xs ys
    rw [levRec]
    simp only [List.length_cons]
    split <;> omega
termination_by xs ys => xs.length + ys.length

theorem levRec_self : ∀ xs : List Char, levRec xs xs = 0
  | [] => by simp [levRec]
  | x :: xs => by
    have h := levRec_self xs
    rw [levRec]
    simp [h]

/-- The per-position element comparison inside `_list_similarity`: two
strings → normalized edit distance, otherwise plain equality. -/
def pair_score (a b : Json) : ℚ :=
  match a, b with
  | .str s, .str t => normalized_levenshtein s t
  | a, b => if Json.beq a b then 1 else 0

/-- `_list_similarity`: both empty → `1.0`; exactly one empty → `0.0`;
otherwise the mean of the positionwise scores over the first
`min(len_a, len_b)` positions. -/
def list_similarity : List Json → List Json → ℚ
  | [], [] => 1
  | [], _ :: _ => 0
  | _ :: _, [] => 0
  | a :: la, b :: lb =>
    let scores := List.zipWith pair_score (a :: la) (b :: lb)
    if scores.length = 0 then 0 else scores.sum / (scores.length : ℚ)

/-- Python `dict.get(k)`: the value at `k`, or `None` (JSON `null`) when the
key is absent — absence and an explicit `null` value are indistinguishable. -/
def getD (fs : List (String × Json)) (k : String) : Json :=
  match fs with
  | [] => .null
  | (l, v) :: fs => if l = k then v else getD fs k

/-- `set(a.keys()) | set(b.keys())`: the distinct keys of both mappings. -/
def key_union (fa fb : List (String × Json)) : List String :=
  (fa.map Prod.fst ++ fb.map Prod.fst).dedup

theorem sizeOf_getD_le (fs : List (String × Json)) (k : String) :
    sizeOf (getD fs k) ≤ sizeOf fs := by
  induction fs with
  | nil => rw [getD]; simp
  | cons p fs ih =>
    obtain ⟨l, v⟩ := p
    rw [getD]
    split
    · simp; omega
    · simp; omega

mutual

/-- `_value_similarity`: strings → normalized edit distance; lists →
`_list_similarity`; mappings → mean of the recursive similarity over the
union of keys (missing keys read as `None` = `null` via `getD`); anything
else → plain equality. -/
def value_similarity : Json → Json → ℚ
  | .str a, .str b => normalized_levenshtein a b
  | .arr a, .arr b => list_similarity a b
  | .obj a, .obj b =>
    let ks := key_union a b
    if ks.length = 0 then 1 else obj_sim_sum a b ks / (ks.length : ℚ)
  | a, b => if Json.beq a b then 1 else 0
termination_by a b => (sizeOf a + sizeOf b, 0)
decreasing_by
  apply Prod.Lex.left
  simp
  omega

/-- The accumulation `s += _value_similarity(a.get(k), b.get(k))` over keys. -/
def obj_sim_sum (fa fb : List (String × Json)) : List String → ℚ
  | [] => 0
  | k :: ks => value_similarity (getD fa k) (getD fb k) + obj_sim_sum fa fb ks
termination_by ks => (sizeOf fa + sizeOf fb + 1, ks.length)
decreasing_by
  · apply Prod.Lex.left
    have h1 := sizeOf_getD_le fa k
    have h2 := sizeOf_getD_le fb k
    omega
  · apply Prod.Lex.right
    simp

end

/-- `round(x, 4)` (modelled as exact rational rounding to 4 decimals). -/
def round4 (q : ℚ) : ℚ := ((round (q * 10000) : ℤ) : ℚ) / 10000

/-- `_risk_from_score`. -/
def risk_from_score (s : ℚ) : String :=
  if s ≥ 9/10 then "high" else if s ≥ 7/10 then "medium" else "low"

/-- The similarity report dictionary.  Every return path of the Python
function sets `risk_level` to a string, so it is modelled as `String`. -/
structure Report where
  has_original : Bool
  has_synthetic : Bool
  overall_similarity : Option ℚ
  per_field : List (String × ℚ)
  risk_level : String

/-- The `per_field` loop: for each key of the union,
`round(_value_similarity(orig.get(k), synth.get(k)), 4)`. -/
def per_field_scores (fa fb : List (String × Json)) : List (String × ℚ) :=
  (key_union fa fb).map fun k => (k, round4 (value_similarity (getD fa k) (getD fb k)))

/-- The body of `generate_plagiarism_report` after both inputs parsed: two
mappings → per-field comparison over the key union, overall = mean of the
(rounded) per-field scores (`0.0` for an empty union); otherwise the
whole-value similarity.  The risk level is computed from the unrounded
overall score, as in the code. -/
def report_valid (a b : Json) : Report :=
  match a, b with
  | .obj fa, .obj fb =>
    let pf := per_field_scores fa fb
    let overall : ℚ :=
      if pf.length = 0 then 0 else (pf.map Prod.snd).sum / (pf.length : ℚ)
    { has_original := true, has_synthetic := true,
      overall_similarity := some (round4 overall), per_field := pf,
      risk_level := risk_from_score overall }
  | a, b =>
    let score := value_similarity a b
    { has_original := true, has_synthetic := true,
      overall_similarity := some (round4 score), per_field := [],
      risk_level := risk_from_score score }

/-- `generate_plagiarism_report`: falsy input on either side → risk
`"unknown"` with no score; a parse failure on either side → risk
`"invalid_json"` with no score; both parsed → `report_valid`. -/
def generate_plagiarism_report (o s : JsonText) : Report :=
  if o.present = false ∨ s.present = false then
    { has_original := o.present, has_synthetic := s.present,
      overall_similarity := none, per_field := [], risk_level := "unknown" }
  else
    match o, s with
    | .valid a, .valid b => report_valid a b
    | o, s =>
      { has_original := o.present, has_synthetic := s.present,
        overall_similarity := none, per_field := [], risk_level := "invalid_json" }

end Plagiarism

/-! ## `synthetic_generator.py`

A generated dataset is a list of named columns.  A cell is a string, a
rational number (Python int/float), a boolean, or `vNull` (pandas `NaN`).
Dates and timestamps are rendered as strings: pandas stores them with
`object`/`datetime64` dtype, which `select_dtypes(include=[np.number])`
excludes, exactly like strings.  Randomness is abstracted by three typed
cell oracles `gs`/`gq`/`gb` (string, numeric, boolean cells, keyed by column
name and row index) and the noise oracle `η` (see `add_noise`). -/

namespace SyntheticGenerator

/-- `models.PrivacyLevel`, ordered low < medium < high < maximum. -/
inductive PrivacyLevel where
  | low | medium | high | maximum
deriving DecidableEq

/-- The position of a level in the order low < medium < high < maximum. -/
def PrivacyLevel.rank : PrivacyLevel → ℕ
  | .low => 0
  | .medium => 1
  | .high => 2
  | .maximum => 3

/-- `models.DataType`: the five supported dataset domains. -/
inductive DataType where
  | health_records | financial_data | sensor_logs | customer_data | research_data
deriving DecidableEq

/-- One cell of a generated dataset. -/
inductive Value where
  | vNull : Value
  | vBool (b : Bool) : Value
  | vNum (q : ℚ) : Value
  | vStr (s : String) : Value
deriving DecidableEq

/-- A dataset: named columns in order, each a list of cells (row-indexed). -/
abbrev DataFrame := List (String × List Value)

/-- The column names of a dataset (`df.columns`). -/
def colNames (df : DataFrame) : List String := df.map Prod.fst

/-- `df.drop(col, axis=1)` for each listed column that is present. -/
def dropCols (cols : List String) (df : DataFrame) : DataFrame :=
  df.filter fun c => !(cols.contains c.1)

/-- Whether a cell is numeric (pandas `np.number`; booleans are dtype
`bool`, dates `object`/`datetime64`, so neither is numeric). -/
def isNum : Value → Bool
  | .vNum _ => true
  | _ => false

/-- A column has numeric dtype iff all its cells are numeric. -/
def isNumericCol (vals : List Value) : Bool := vals.all isNum

/-- Adding a perturbation to a numeric cell; non-numeric cells unchanged. -/
def noiseCell (d : ℚ) : Value → Value
  | .vNum q => .vNum (q + d)
  | v => v

/-- `noise = np.random.normal(0, factor, len(df)); df[col] += noise * df[col].std()`
applied to every numeric column except `target`.  A draw from
`N(0, factor)` is `factor` times a standard-normal draw, so the additive
perturbation of cell `i` of column `c` is modelled as `factor * η c i`,
where the oracle `η c i` stands for the standard-normal draw times the
column's empirical standard deviation. -/
def add_noise (η : String → ℕ → ℚ) (factor : ℚ) (df : DataFrame) : DataFrame :=
  df.map fun c =>
    if c.1 ≠ "target" ∧ isNumericCol c.2 = true then
      (c.1, c.2.enum.map fun p => noiseCell (factor * η c.1 p.1) p.2)
    else c

/-- `pd.cut(age, bins=[0, 30, 50, 70, 100], labels=['<30','30-50','50-70','70+'])`
on one cell; values outside `(0, 100]` become `NaN`. -/
def cut_age_high : Value → Value
  | .vNum q =>
    if q ≤ 0 ∨ 100 < q then .vNull
    else if q ≤ 30 then .vStr "<30"
    else if q ≤ 50 then .vStr "30-50"
    else if q ≤ 70 then .vStr "50-70"
    else .vStr "70+"
  | v => v

/-- `pd.cut(age, bins=[0, 40, 80, 100], labels=['Young','Middle-aged','Senior'])`
on one cell; values outside `(0, 100]` become `NaN`. -/
def cut_age_max : Value → Value
  | .vNum q =>
    if q ≤ 0 ∨ 100 < q then .vNull
    else if q ≤ 40 then .vStr "Young"
    else if q ≤ 80 then .vStr "Middle-aged"
    else .vStr "Senior"
  | v => v

/-- The high-level `income_range.replace({...})` map (5 buckets → 3). -/
def replace_income_high : Value → Value
  | .vStr "<30k" => .vStr "Low"
  | .vStr "30k-50k" => .vStr "Low"
  | .vStr "50k-75k" => .vStr "Medium"
  | .vStr "75k-100k" => .vStr "Medium"
  | .vStr ">100k" => .vStr "High"
  | v => v

/-- The maximum-level `income_range.replace({...})` map (5 buckets → 2). -/
def replace_income_max : Value → Value
  | .vStr "<30k" => .vStr "Low"
  | .vStr "30k-50k" => .vStr "Low"
  | .vStr "50k-75k" => .vStr "Low"
  | .vStr "75k-100k" => .vStr "High"
  | .vStr ">100k" => .vStr "High"
  | v => v

/-- `if name in df.columns: df[name] = df[name].map(f)`: rewrite the cells
of the named column when present, a no-op when absent. -/
def mapCol (name : String) (f : Value → Value) (df : DataFrame) : DataFrame :=
  df.map fun c => if c.1 = name then (c.1, c.2.map f) else c

/-- The five identifier columns dropped at medium and above. -/
def id_columns : List String :=
  ["patient_id", "customer_id", "participant_id", "transaction_id", "sensor_id"]

/-- The three identifier columns dropped at low (the three `if ... in
df.columns: df.drop(...)` statements of the low branch). -/
def low_id_columns : List String := ["patient_id", "customer_id", "participant_id"]

/-- The location columns dropped at maximum. -/
def location_columns : List String :=
  ["address", "city", "state", "zip_code", "location_lat", "location_lon"]

/-- The standard deviation of the per-cell Gaussian noise at each level
(`np.random.normal(0, ·, len(df))`); no noise step exists at low, recorded
as factor 0. -/
def noise_factor : PrivacyLevel → ℚ
  | .low => 0
  | .medium => 1/100
  | .high => 5/100
  | .maximum => 1/10

/-- The columns each level removes (low: the three drops of the low branch;
medium and high: `id_columns`; maximum: `id_columns` then
`location_columns`). -/
def drop_targets : PrivacyLevel → List String
  | .low => low_id_columns
  | .medium => id_columns
  | .high => id_columns
  | .maximum => id_columns ++ location_columns

/-- The columns each level generalizes (`pd.cut` on `age`, `replace` on
`income_range`, both only at high and maximum). -/
def gen_targets : PrivacyLevel → List String
  | .low => []
  | .medium => []
  | .high => ["age", "income_range"]
  | .maximum => ["age", "income_range"]

/-- `_apply_privacy_transformations`: per level, drop identifiers, add
scaled Gaussian noise to numeric columns (never `target`), generalize `age`
and `income_range`, and at maximum also drop location columns — in the
order the code performs them. -/
def apply_privacy_transformations (η : String → ℕ → ℚ) (level : PrivacyLevel)
    (df : DataFrame) : DataFrame :=
  match level with
  | .low => dropCols low_id_columns df
  | .medium => add_noise η (noise_factor .medium) (dropCols id_columns df)
  | .high =>
    mapCol "income_range" replace_income_high
      (mapCol "age" cut_age_high
        (add_noise η (noise_factor .high) (dropCols id_columns df)))
  | .maximum =>
    dropCols location_columns
      (mapCol "income_range" replace_income_max
        (mapCol "age" cut_age_max
          (add_noise η (noise_factor .maximum) (dropCols id_columns df))))

/-- A column of freshly generated strings (names, emails, dates, uuids, …). -/
def strCol (gs : String → ℕ → String) (c : String) (n : ℕ) : List Value :=
  (List.range n).map fun i => .vStr (gs c i)

/-- A column of freshly generated numbers. -/
def numCol (gq : String → ℕ → ℚ) (c : String) (n : ℕ) : List Value :=
  (List.range n).map fun i => .vNum (gq c i)

/-- A column of freshly generated booleans. -/
def boolCol (gb : String → ℕ → Bool) (c : String) (n : ℕ) : List Value :=
  (List.range n).map fun i => .vBool (gb c i)

/-- `_generate_health_records`: the health schema. -/
def health_df (n : ℕ) (gs : String → ℕ → String) (gq : String → ℕ → ℚ)
    (_gb : String → ℕ → Bool) : DataFrame :=
  [("patient_id", strCol gs "patient_id" n),
   ("age", numCol gq "age" n),
   ("gender", strCol gs "gender" n),
   ("height_cm", numCol gq "height_cm" n),
   ("weight_kg", numCol gq "weight_kg" n),
   ("blood_pressure_systolic", numCol gq "blood_pressure_systolic" n),
   ("blood_pressure_diastolic", numCol gq "blood_pressure_diastolic" n),
   ("heart_rate", numCol gq "heart_rate" n),
   ("temperature_c", numCol gq "temperature_c" n),
   ("cholesterol", numCol gq "cholesterol" n),
   ("glucose", numCol gq "glucose" n),
   ("diagnosis", strCol gs "diagnosis" n),
   ("medication", strCol gs "medication" n),
   ("admission_date", strCol gs "admission_date" n),
   ("discharge_date", strCol gs "discharge_date" n),
   ("insurance_type", strCol gs "insurance_type" n)]

/-- `_generate_financial_data`: the financial schema. -/
def financial_df (n : ℕ) (gs : String → ℕ → String) (gq : String → ℕ → ℚ)
    (gb : String → ℕ → Bool) : DataFrame :=
  [("transaction_id", strCol gs "transaction_id" n),
   ("customer_id", strCol gs "customer_id" n),
   ("amount", numCol gq "amount" n),
   ("currency", strCol gs "currency" n),
   ("transaction_type", strCol gs "transaction_type" n),
   ("merchant_category", strCol gs "merchant_category" n),
   ("account_type", strCol gs "account_type" n),
   ("location", strCol gs "location" n),
   ("timestamp", strCol gs "timestamp" n),
   ("is_fraudulent", boolCol gb "is_fraudulent" n),
   ("credit_score", numCol gq "credit_score" n),
   ("income_level", strCol gs "income_level" n)]

/-- `_generate_sensor_logs`: the sensor schema. -/
def sensor_df (n : ℕ) (gs : String → ℕ → String) (gq : String → ℕ → ℚ)
    (gb : String → ℕ → Bool) : DataFrame :=
  [("sensor_id", strCol gs "sensor_id" n),
   ("timestamp", strCol gs "timestamp" n),
   ("temperature_c", numCol gq "temperature_c" n),
   ("humidity_percent", numCol gq "humidity_percent" n),
   ("pressure_hpa", numCol gq "pressure_hpa" n),
   ("light_lux", numCol gq "light_lux" n),
   ("motion_detected", boolCol gb "motion_detected" n),
   ("battery_level", numCol gq "battery_level" n),
   ("signal_strength", numCol gq "signal_strength" n),
   ("location_lat", numCol gq "location_lat" n),
   ("location_lon", numCol gq "location_lon" n),
   ("device_status", strCol gs "device_status" n)]

/-- `_generate_customer_data`: the customer schema. -/
def customer_df (n : ℕ) (gs : String → ℕ → String) (gq : String → ℕ → ℚ)
    (gb : String → ℕ → Bool) : DataFrame :=
  [("customer_id", strCol gs "customer_id" n),
   ("first_name", strCol gs "first_name" n),
   ("last_name", strCol gs "last_name" n),
   ("email", strCol gs "email" n),
   ("phone", strCol gs "phone" n),
   ("date_of_birth", strCol gs "date_of_birth" n),
   ("address", strCol gs "address" n),
   ("city", strCol gs "city" n),
   ("state", strCol gs "state" n),
   ("zip_code", strCol gs "zip_code" n),
   ("country", strCol gs "country" n),
   ("registration_date", strCol gs "registration_date" n),
   ("last_login", strCol gs "last_login" n),
   ("total_orders", numCol gq "total_orders" n),
   ("total_spent", numCol gq "total_spent" n),
   ("loyalty_tier", strCol gs "loyalty_tier" n),
   ("preferred_category", strCol gs "preferred_category" n),
   ("is_active", boolCol gb "is_active" n),
   ("marketing_consent", boolCol gb "marketing_consent" n)]

/-- `_generate_research_data`: the research schema (`make_classification`
features, the class `target`, then the added demographic columns). -/
def research_df (n : ℕ) (gs : String → ℕ → String) (gq : String → ℕ → ℚ)
    (_gb : String → ℕ → Bool) : DataFrame :=
  [("feature_1", numCol gq "feature_1" n),
   ("feature_2", numCol gq "feature_2" n),
   ("feature_3", numCol gq "feature_3" n),
   ("feature_4", numCol gq "feature_4" n),
   ("feature_5", numCol gq "feature_5" n),
   ("feature_6", numCol gq "feature_6" n),
   ("feature_7", numCol gq "feature_7" n),
   ("feature_8", numCol gq "feature_8" n),
   ("feature_9", numCol gq "feature_9" n),
   ("feature_10", numCol gq "feature_10" n),
   ("target", numCol gq "target" n),
   ("participant_id", strCol gs "participant_id" n),
   ("age", numCol gq "age" n),
   ("gender", strCol gs "gender" n),
   ("education_level", strCol gs "education_level" n),
   ("income_range", strCol gs "income_range" n),
   ("experiment_group", strCol gs "experiment_group" n),
   ("response_time_ms", numCol gq "response_time_ms" n),
   ("accuracy", numCol gq "accuracy" n)]

/-- The schema builder dispatch of `generate_dataset`. -/
def schema_df (dt : DataType) (n : ℕ) (gs : String → ℕ → String)
    (gq : String → ℕ → ℚ) (gb : String → ℕ → Bool) : DataFrame :=
  match dt with
  | .health_records => health_df n gs gq gb
  | .financial_data => financial_df n gs gq gb
  | .sensor_logs => sensor_df n gs gq gb
  | .customer_data => customer_df n gs gq gb
  | .research_data => research_df n gs gq gb

/-- `generate_dataset`: build the schema's dataset, then apply the privacy
transformation (the CSV serialisation step is dropped; `params` does not
alter per-column generation). -/
def generate_dataset (gs : String → ℕ → String) (gq : String → ℕ → ℚ)
    (gb : String → ℕ → Bool) (η : String → ℕ → ℚ)
    (dt : DataType) (n : ℕ) (level : PrivacyLevel) : DataFrame :=
  apply_privacy_transformations η level (schema_df dt n gs gq gb)

end SyntheticGenerator

/-! ## Helper lemmas for the similarity auditor -/

namespace Plagiarism

theorem levRec_nil_right : ∀ xs : List Char, levRec xs [] = xs.length
  | [] => by rw [levRec]
  | x :: xs => by rw [levRec]

theorem string_length_pos {s : String} (h : s ≠ "") : 0 < s.length := by
  cases s with
  | mk l =>
    cases l with
    | nil => exact absurd rfl h
    | cons c cs => simp [String.length]

/-- The JSON-value mirror of `Json.beq_null_iff`. -/
theorem Json_beq_null_right : ∀ a : Json, Json.beq a .null = true ↔ a = .null := by
  intro a
  cases a <;> simp [Json.beq]

theorem normalized_levenshtein_nonneg (a b : String) : 0 ≤ normalized_levenshtein a b := by
  rw [normalized_levenshtein]
  split
  · norm_num
  · split
    · norm_num
    · rename_i hab he
      rw [sub_nonneg]
      apply div_le_one_of_le₀
      · have h1 : levRec a.toList b.toList ≤ max a.length b.length := by
          have := levRec_le_max a.toList b.toList
          simpa using this
        rw [← levRec_eq_levenshtein]
        exact_mod_cast h1
      · positivity

theorem normalized_levenshtein_le_one (a b : String) : normalized_levenshtein a b ≤ 1 := by
  rw [normalized_levenshtein]
  split
  · norm_num
  · split
    · norm_num
    · have h0 : (0 : ℚ) ≤ ((levenshtein Levenshtein.defaultCost a.toList b.toList : ℕ) : ℚ) /
          ((max a.length b.length : ℕ) : ℚ) := by positivity
      linarith

theorem pair_score_nonneg (a b : Json) : 0 ≤ pair_score a b := by
  rw [pair_score.eq_def]
  split
  · exact normalized_levenshtein_nonneg ..
  · split <;> norm_num

theorem pair_score_le_one (a b : Json) : pair_score a b ≤ 1 := by
  rw [pair_score.eq_def]
  split
  · exact normalized_levenshtein_le_one ..
  · split <;> norm_num

theorem pair_score_self (a : Json) : pair_score a a = 1 := by
  cases a <;> simp [pair_score, Json.beq_refl, normalized_levenshtein]

end Plagiarism

/-- C7.  `generate_plagiarism_report` error classification: a falsy input on
either side yields no overall score and risk `"unknown"`; two truthy inputs
with a parse failure on either side yield no overall score and risk
`"invalid_json"`; `audit(None, "{}")` has `has_original = false`, no overall
score, and risk `"unknown"`. -/
theorem C7_claim :
    (∀ o s : JsonText, o.present = false ∨ s.present = false →
      (Plagiarism.generate_plagiarism_report o s).overall_similarity = none ∧
      (Plagiarism.generate_plagiarism_report o s).risk_level = "unknown") ∧
    (∀ o s : JsonText, o.present = true → s.present = true →
      (∃ t, o = .invalid t) ∨ (∃ t, s = .invalid t) →
      (Plagiarism.generate_plagiarism_report o s).overall_similarity = none ∧
      (Plagiarism.generate_plagiarism_report o s).risk_level = "invalid_json") ∧
    ((Plagiarism.generate_plagiarism_report .missing (.valid (.obj []))).has_original = false ∧
     (Plagiarism.generate_plagiarism_report .missing (.valid (.obj []))).overall_similarity = none ∧
     (Plagiarism.generate_plagiarism_report .missing (.valid (.obj []))).risk_level = "unknown") := by
  refine ⟨?_, ?_, ⟨rfl, rfl, rfl⟩⟩
  · intro o s h
    cases o <;> cases s <;> simp_all [JsonText.present] <;> exact ⟨rfl, rfl⟩
  · intro o s ho hs h
    rcases h with ⟨t, rfl⟩ | ⟨t, rfl⟩
    · cases s with
      | missing => simp [JsonText.present] at hs
      | invalid u => exact ⟨rfl, rfl⟩
      | valid b => exact ⟨rfl, rfl⟩
    · cases o with
      | missing => simp [JsonText.present] at ho
      | invalid u => exact ⟨rfl, rfl⟩
      | valid a => cases a <;> exact ⟨rfl, rfl⟩

/-- Witness for C7 at concrete inputs. -/
theorem C7_witness :
    ((Plagiarism.generate_plagiarism_report .missing (.valid (.obj []))).risk_level
      = "unknown") ∧
    ((Plagiarism.generate_plagiarism_report (.invalid "oops") (.valid (.obj []))).risk_level
      = "invalid_json") :=
  ⟨(C7_claim.1 .missing (.valid (.obj [])) (Or.inl rfl)).2,
   (C7_claim.2.1 (.invalid "oops") (.valid (.obj [])) rfl rfl (Or.inl ⟨"oops", rfl⟩)).2⟩

/-- C9.  `generate_synthetic_params` never raises and degrades to `None`:
`None`/empty input, unparseable text, and a parsed non-mapping top level all
return `None` (the Lean embedding is a total function, so "never raises"
holds by construction). -/
theorem C9_claim : ∀ (w nm : ℕ → String) (ch : ℕ → ℕ),
    DataMasking.generate_synthetic_params w nm ch .missing = none ∧
    (∀ t : String, DataMasking.generate_synthetic_params w nm ch (.invalid t) = none) ∧
    (∀ j : Json, (∀ fs, j ≠ .obj fs) →
      DataMasking.generate_synthetic_params w nm ch (.valid j) = none) := by
  intro w nm ch
  refine ⟨rfl, fun t => rfl, ?_⟩
  intro j h
  cases j <;> first
    | rfl
    | exact absurd rfl (h _)

/-- Witness for C9 at a concrete non-mapping input. -/
theorem C9_witness :
    DataMasking.generate_synthetic_params (fun _ => "w") (fun _ => "X") (fun _ => 0)
      (.valid (.num 3)) = none :=
  (C9_claim (fun _ => "w") (fun _ => "X") (fun _ => 0)).2.2 (.num 3) (by intro fs h; cases h)

/-- C8.  `_normalized_levenshtein` equals `1 − Levenshtein(a,b)/max(|a|,|b|)`
for the classical unit-cost Levenshtein distance (`levRec`), and takes the
specified values on the three reference inputs. -/
theorem C8_claim :
    (∀ a b : String,
      Plagiarism.normalized_levenshtein a b =
        1 - ((Plagiarism.levRec a.toList b.toList : ℕ) : ℚ) /
          ((max a.length b.length : ℕ) : ℚ)) ∧
    Plagiarism.normalized_levenshtein "kitten" "kitten" = 1 ∧
    Plagiarism.normalized_levenshtein "" "abc" = 0 ∧
    Plagiarism.normalized_levenshtein "abc" "abd" = 2/3 := by
  refine ⟨?_, ?_, ?_, ?_⟩
  · intro a b
    rw [Plagiarism.normalized_levenshtein]
    by_cases hab : a = b
    · subst hab
      rw [if_pos rfl]
      have h0 : Plagiarism.levRec a.toList a.toList = 0 := Plagiarism.levRec_self a.toList
      rw [h0]
      norm_num
    · rw [if_neg hab]
      by_cases he : a = "" ∨ b = ""
      · rw [if_pos he]
        rcases he with he | he
        · subst he
          have h1 : Plagiarism.levRec "".toList b.toList = b.length := by
            rw [show "".toList = ([] : List Char) from rfl, Plagiarism.levRec]
            exact rfl
          have h2 : max "".length b.length = b.length := by
            rw [show "".length = 0 from rfl]
            omega
          have hb : b ≠ "" := by
            intro hb
            exact hab (by rw [hb])
          have h3 : ((b.length : ℕ) : ℚ) ≠ 0 := by
            exact_mod_cast Nat.pos_iff_ne_zero.mp (Plagiarism.string_length_pos hb)
          rw [h1, h2, div_self h3]
          norm_num
        · subst he
          have h1 : Plagiarism.levRec a.toList "".toList = a.length := by
            rw [show "".toList = ([] : List Char) from rfl, Plagiarism.levRec_nil_right]
            exact rfl
          have h2 : max a.length "".length = a.length := by
            rw [show "".length = 0 from rfl]
            omega
          have ha : a ≠ "" := hab
          have h3 : ((a.length : ℕ) : ℚ) ≠ 0 := by
            exact_mod_cast Nat.pos_iff_ne_zero.mp (Plagiarism.string_length_pos ha)
          rw [h1, h2, div_self h3]
          norm_num
      · rw [if_neg he, Plagiarism.levRec_eq_levenshtein]
  · rw [Plagiarism.normalized_levenshtein, if_pos rfl]
  · rw [Plagiarism.normalized_levenshtein, if_neg (by decide), if_pos (Or.inl rfl)]
  · rw [Plagiarism.normalized_levenshtein, if_neg (by decide), if_neg (by decide)]
    have hl : (levenshtein Levenshtein.defaultCost "abc".toList "abd".toList : ℕ) = 1 := rfl
    have hm : ((max "abc".length "abd".length : ℕ) : ℚ) = 3 := by norm_num [String.length]
    rw [hl, hm]
    norm_num

namespace Plagiarism

theorem round4_bounds {q : ℚ} (h0 : 0 ≤ q) (h1 : q ≤ 1) :
    0 ≤ round4 q ∧ round4 q ≤ 1 := by
  have hl : (0 : ℤ) ≤ round (q * 10000) := by
    rw [round_eq]
    have h2 : (0 : ℤ) = ⌊(1 : ℚ) / 2⌋ := by norm_num
    rw [h2]
    apply Int.floor_le_floor
    nlinarith
  have hu : round (q * 10000) ≤ 10000 := by
    rw [round_eq]
    have h2 : (10000 : ℤ) = ⌊(10000 : ℚ) + 1 / 2⌋ := by norm_num
    rw [h2]
    apply Int.floor_le_floor
    nlinarith
  constructor
  · rw [round4]
    positivity
  · rw [round4]
    rw [div_le_one (by norm_num)]
    exact_mod_cast hu

theorem round4_one : round4 1 = 1 := by
  rw [round4]
  norm_num

theorem round4_zero : round4 0 = 0 := by
  rw [round4]
  norm_num

theorem mem_zipWith_pair_score :
    ∀ (la lb : List Json) (x : ℚ), x ∈ List.zipWith pair_score la lb →
      ∃ a b, x = pair_score a b := by
  intro la
  induction la with
  | nil =>
    intro lb x hx
    simp at hx
  | cons a as ih =>
    intro lb x hx
    cases lb with
    | nil => simp at hx
    | cons b bs =>
      rw [List.zipWith_cons_cons] at hx
      rcases List.mem_cons.mp hx with h | h
      · exact ⟨a, b, h⟩
      · exact ih bs x h

theorem list_similarity_nonneg (la lb : List Json) : 0 ≤ list_similarity la lb := by
  rw [list_similarity.eq_def]
  split
  · norm_num
  · norm_num
  · norm_num
  · dsimp only
    split
    · norm_num
    · apply div_nonneg
      · apply List.sum_nonneg
        intro x hx
        obtain ⟨a, b, rfl⟩ := mem_zipWith_pair_score _ _ x hx
        exact pair_score_nonneg a b
      · positivity

theorem list_similarity_le_one : ∀ la lb : List Json, list_similarity la lb ≤ 1
  | [], [] => by rw [list_similarity]
  | [], b :: bs => by rw [list_similarity]; norm_num
  | a :: as, [] => by rw [list_similarity]; norm_num
  | a :: as, b :: bs => by
    rw [list_similarity]
    split
    · norm_num
    · rename_i h
      have hpos : 0 < ((List.zipWith pair_score (a :: as) (b :: bs)).length : ℚ) := by
        exact_mod_cast Nat.pos_of_ne_zero h
      rw [div_le_one hpos]
      calc (List.zipWith pair_score (a :: as) (b :: bs)).sum
          ≤ (List.zipWith pair_score (a :: as) (b :: bs)).length • (1 : ℚ) :=
            List.sum_le_card_nsmul _ _ (fun x hx => by
              obtain ⟨c, d, rfl⟩ := mem_zipWith_pair_score _ _ x hx
              exact pair_score_le_one c d)
        _ = ((List.zipWith pair_score (a :: as) (b :: bs)).length : ℚ) := by simp

theorem list_similarity_self : ∀ la : List Json, list_similarity la la = 1
  | [] => by rw [list_similarity]
  | a :: as => by
    rw [list_similarity]
    rw [List.zipWith_same]
    have hmap : (a :: as).map (fun x => pair_score x x) = (a :: as).map (fun _ => (1 : ℚ)) :=
      List.map_congr_left (fun x _ => pair_score_self x)
    rw [hmap]
    have hrep : (a :: as).map (fun _ => (1 : ℚ)) = List.replicate (as.length + 1) (1 : ℚ) := by
      rw [List.map_const']
      simp
    rw [hrep]
    rw [if_neg (by simp)]
    simp
    rw [div_self (by positivity)]

end Plagiarism

namespace Plagiarism

theorem obj_sim_sum_eq (fa fb : List (String × Json)) :
    ∀ ks : List String, obj_sim_sum fa fb ks =
      (ks.map fun k => value_similarity (getD fa k) (getD fb k)).sum
  | [] => by rw [obj_sim_sum]; simp
  | k :: ks => by rw [obj_sim_sum]; simp [obj_sim_sum_eq fa fb ks]

theorem value_similarity_bounds : ∀ a b : Json,
    0 ≤ value_similarity a b ∧ value_similarity a b ≤ 1 := by
  suffices H : ∀ n : ℕ, ∀ a b : Json, sizeOf a + sizeOf b ≤ n →
      0 ≤ value_similarity a b ∧ value_similarity a b ≤ 1 by
    intro a b
    exact H (sizeOf a + sizeOf b) a b le_rfl
  intro n
  induction n using Nat.strong_induction_on with
  | _ n ih =>
    intro a b hn
    rw [value_similarity.eq_def]
    split
    · exact ⟨normalized_levenshtein_nonneg .., normalized_levenshtein_le_one ..⟩
    · exact ⟨list_similarity_nonneg .., list_similarity_le_one ..⟩
    · rename_i fa fb
      dsimp only
      split
      · norm_num
      · rename_i hks
        have hpos : 0 < ((key_union fa fb).length : ℚ) := by
          exact_mod_cast Nat.pos_of_ne_zero hks
        have hterm : ∀ x ∈ (key_union fa fb).map
            (fun k => value_similarity (getD fa k) (getD fb k)), 0 ≤ x ∧ x ≤ 1 := by
          intro x hx
          rw [List.mem_map] at hx
          obtain ⟨k, _, rfl⟩ := hx
          have h1 := sizeOf_getD_le fa k
          have h2 := sizeOf_getD_le fb k
          have hsz : sizeOf (Json.obj fa) + sizeOf (Json.obj fb) ≤ n := hn
          simp only [Json.obj.sizeOf_spec] at hsz
          exact ih (sizeOf (getD fa k) + sizeOf (getD fb k)) (by omega) _ _ le_rfl
        rw [obj_sim_sum_eq]
        constructor
        · apply div_nonneg ?_ (le_of_lt hpos)
          exact List.sum_nonneg fun x hx => (hterm x hx).1
        · rw [div_le_one hpos]
          calc ((key_union fa fb).map
                (fun k => value_similarity (getD fa k) (getD fb k))).sum
              ≤ ((key_union fa fb).map
                (fun k => value_similarity (getD fa k) (getD fb k))).length • (1 : ℚ) :=
                List.sum_le_card_nsmul _ _ (fun x hx => (hterm x hx).2)
            _ = ((key_union fa fb).length : ℚ) := by simp
    · split <;> norm_num

theorem value_similarity_self : ∀ a : Json, value_similarity a a = 1 := by
  suffices H : ∀ n : ℕ, ∀ a : Json, sizeOf a ≤ n → value_similarity a a = 1 by
    intro a
    exact H (sizeOf a) a le_rfl
  intro n
  induction n using Nat.strong_induction_on with
  | _ n ih =>
    intro a hn
    rw [value_similarity.eq_def]
    split
    · rw [normalized_levenshtein, if_pos rfl]
    · exact list_similarity_self _
    · rename_i fs
      dsimp only
      split
      · rfl
      · rename_i hks
        rw [obj_sim_sum_eq]
        have hsz : sizeOf (Json.obj fs) ≤ n := hn
        simp only [Json.obj.sizeOf_spec] at hsz
        have hterm : ∀ k ∈ key_union fs fs,
            value_similarity (getD fs k) (getD fs k) = 1 := by
          intro k _
          have h1 := sizeOf_getD_le fs k
          exact ih (sizeOf (getD fs k)) (by omega) _ le_rfl
        have hmap : (key_union fs fs).map
              (fun k => value_similarity (getD fs k) (getD fs k)) =
            (key_union fs fs).map (fun _ => (1 : ℚ)) :=
          List.map_congr_left hterm
        have hne : (((key_union fs fs).length : ℕ) : ℚ) ≠ 0 := by
          exact_mod_cast hks
        rw [hmap, List.map_const', List.sum_replicate]
        simp only [nsmul_eq_mul, mul_one]
        exact div_self hne
    · rw [if_pos (Json.beq_refl _)]

theorem key_union_eq_nil_iff (fa fb : List (String × Json)) :
    key_union fa fb = [] ↔ fa = [] ∧ fb = [] := by
  rw [key_union, List.dedup_eq_nil, List.append_eq_nil]
  simp [List.map_eq_nil_iff]

/-- `dict.get` returns `None` (null) for a key that is not present. -/
theorem getD_eq_null_of_not_mem :
    ∀ (fs : List (String × Json)) (k : String), k ∉ fs.map Prod.fst → getD fs k = .null
  | [], _, _ => by rw [getD]
  | (l, v) :: fs, k, h => by
    rw [getD]
    rw [List.map_cons, List.mem_cons] at h
    push_neg at h
    rw [if_neg (fun hlk => h.1 hlk.symm)]
    exact getD_eq_null_of_not_mem fs k h.2

/-- `value_similarity` against the `None` sentinel is `1` exactly on `null`
(the sentinel equals itself and an explicit JSON `null`, nothing else). -/
theorem value_similarity_null_right : ∀ v : Json, value_similarity v .null = 1 ↔ v = .null := by
  intro v
  cases v <;> simp [value_similarity, Json.beq]

theorem per_field_scores_map_snd (fa fb : List (String × Json)) :
    (per_field_scores fa fb).map Prod.snd =
      (key_union fa fb).map
        (fun k => round4 (value_similarity (getD fa k) (getD fb k))) := by
  rw [per_field_scores, List.map_map]
  rfl

theorem per_field_scores_length (fa fb : List (String × Json)) :
    (per_field_scores fa fb).length = (key_union fa fb).length := by
  rw [per_field_scores, List.length_map]

theorem report_valid_overall_bounds (a b : Json) :
    ∀ r : ℚ, (report_valid a b).overall_similarity = some r → 0 ≤ r ∧ r ≤ 1 := by
  intro r h
  rw [report_valid.eq_def] at h
  split at h
  · rename_i fa fb
    simp only [Option.some.injEq] at h
    subst h
    have helem : ∀ x ∈ (per_field_scores fa fb).map Prod.snd, 0 ≤ x ∧ x ≤ 1 := by
      rw [per_field_scores_map_snd]
      intro x hx
      rw [List.mem_map] at hx
      obtain ⟨k, _, rfl⟩ := hx
      exact round4_bounds (value_similarity_bounds _ _).1 (value_similarity_bounds _ _).2
    have hov : 0 ≤ (if (per_field_scores fa fb).length = 0 then (0 : ℚ)
          else ((per_field_scores fa fb).map Prod.snd).sum /
            ((per_field_scores fa fb).length : ℚ)) ∧
        (if (per_field_scores fa fb).length = 0 then (0 : ℚ)
          else ((per_field_scores fa fb).map Prod.snd).sum /
            ((per_field_scores fa fb).length : ℚ)) ≤ 1 := by
      split
      · norm_num
      · rename_i hlen
        have hpos : (0 : ℚ) < ((per_field_scores fa fb).length : ℚ) := by
          exact_mod_cast Nat.pos_of_ne_zero hlen
        constructor
        · exact div_nonneg (List.sum_nonneg fun x hx => (helem x hx).1) (le_of_lt hpos)
        · rw [div_le_one hpos]
          calc ((per_field_scores fa fb).map Prod.snd).sum
              ≤ ((per_field_scores fa fb).map Prod.snd).length • (1 : ℚ) :=
                List.sum_le_card_nsmul _ _ (fun x hx => (helem x hx).2)
            _ = (((per_field_scores fa fb).length : ℕ) : ℚ) := by
                simp [List.length_map]
    exact round4_bounds hov.1 hov.2
  · simp only [Option.some.injEq] at h
    subst h
    exact round4_bounds (value_similarity_bounds a b).1 (value_similarity_bounds a b).2

theorem gpr_eq_report_valid (a b : Json) :
    generate_plagiarism_report (.valid a) (.valid b) = report_valid a b := rfl

end Plagiarism

/-- C3 counterexample.  On the identical empty-mapping text, the report's
overall similarity is `0.0`, not `1.0` (the empty `per_field` falls into the
`else 0.0` branch), refuting `audit(X, X) = 1.0` for every mapping `X`. -/
theorem C3_counterexample :
    (Plagiarism.generate_plagiarism_report (.valid (.obj []))
        (.valid (.obj []))).overall_similarity = some 0 ∧
    (Plagiarism.generate_plagiarism_report (.valid (.obj []))
        (.valid (.obj []))).overall_similarity ≠ some 1 := by
  have h : (Plagiarism.generate_plagiarism_report (.valid (.obj []))
      (.valid (.obj []))).overall_similarity = some 0 := by
    rw [Plagiarism.gpr_eq_report_valid, Plagiarism.report_valid]
    norm_num [Plagiarism.per_field_scores, Plagiarism.key_union, Plagiarism.round4_zero]
  refine ⟨h, ?_⟩
  rw [h]
  simp

/-- C3 as amended.  Whenever `generate_plagiarism_report` defines
`overall_similarity`, the value lies in `[0, 1]`; and on identical mapping
text the value is `1.0` provided the mapping has at least one key (the empty
mapping yields `0.0`, see the counterexample). -/
theorem C3_amended :
    (∀ o s : JsonText, ∀ r : ℚ,
      (Plagiarism.generate_plagiarism_report o s).overall_similarity = some r →
      0 ≤ r ∧ r ≤ 1) ∧
    (∀ fs : List (String × Json), fs ≠ [] →
      (Plagiarism.generate_plagiarism_report (.valid (.obj fs))
        (.valid (.obj fs))).overall_similarity = some 1) := by
  constructor
  · intro o s r h
    cases o with
    | missing => exact Option.noConfusion h
    | invalid t =>
      cases s with
      | missing => exact Option.noConfusion h
      | invalid u => exact Option.noConfusion h
      | valid b => exact Option.noConfusion h
    | valid a =>
      cases s with
      | missing => exact Option.noConfusion h
      | invalid u => exact Option.noConfusion h
      | valid b =>
        rw [Plagiarism.gpr_eq_report_valid] at h
        exact Plagiarism.report_valid_overall_bounds a b r h
  · intro fs h
    rw [Plagiarism.gpr_eq_report_valid, Plagiarism.report_valid]
    have hlen : (Plagiarism.per_field_scores fs fs).length ≠ 0 := by
      rw [Plagiarism.per_field_scores_length]
      rw [Ne, List.length_eq_zero, Plagiarism.key_union_eq_nil_iff]
      tauto
    have hmap : (Plagiarism.per_field_scores fs fs).map Prod.snd =
        (Plagiarism.key_union fs fs).map (fun _ => (1 : ℚ)) := by
      rw [Plagiarism.per_field_scores_map_snd]
      apply List.map_congr_left
      intro k _
      rw [Plagiarism.value_similarity_self, Plagiarism.round4_one]
    have hne : (((Plagiarism.per_field_scores fs fs).length : ℕ) : ℚ) ≠ 0 := by
      exact_mod_cast hlen
    simp only [if_neg hlen, hmap, List.map_const', List.sum_replicate, nsmul_eq_mul,
      mul_one, Option.some.injEq]
    rw [show ((Plagiarism.key_union fs fs).length : ℚ) =
        (((Plagiarism.per_field_scores fs fs).length : ℕ) : ℚ) from by
      rw [Plagiarism.per_field_scores_length]]
    rw [div_self hne, Plagiarism.round4_one]

/-- Witness for C3 at a concrete one-key mapping. -/
theorem C3_witness :
    (0 ≤ (1 : ℚ) ∧ (1 : ℚ) ≤ 1) ∧
    (Plagiarism.generate_plagiarism_report (.valid (.obj [("a", .num 3)]))
      (.valid (.obj [("a", .num 3)]))).overall_similarity = some 1 := by
  have h2 := C3_amended.2 [("a", .num 3)] (by simp)
  exact ⟨C3_amended.1 _ _ 1 h2, h2⟩

/-- C4 counterexample.  For original `{"k": null}` and synthetic `{}`, the
key `k` is present only on one side yet `per_field["k"] = 1.0` (and not the
claimed `0.0`): the "missing" sentinel is Python `None`, which is the very
same value as JSON `null`, so it is not equal *only* to itself. -/
theorem C4_counterexample :
    (Plagiarism.generate_plagiarism_report (.valid (.obj [("k", .null)]))
      (.valid (.obj []))).per_field = [("k", (1 : ℚ))] ∧ (1 : ℚ) ≠ 0 := by
  constructor
  · rw [Plagiarism.gpr_eq_report_valid, Plagiarism.report_valid]
    show Plagiarism.per_field_scores [("k", Json.null)] [] = [("k", 1)]
    rw [Plagiarism.per_field_scores]
    rw [show Plagiarism.key_union [("k", Json.null)] [] = ["k"] from rfl]
    rw [List.map_cons, List.map_nil]
    rw [show Plagiarism.getD [("k", Json.null)] "k" = Json.null from rfl,
      show Plagiarism.getD [] "k" = Json.null from rfl,
      Plagiarism.value_similarity_self, Plagiarism.round4_one]
  · norm_num

/-- C4 as amended.  A key present on only one side is compared against
Python `None`, i.e. JSON `null` (`getD` yields `null` for an absent key);
this sentinel is *not* equal only to itself: `value_similarity v null = 1`
iff `v = null`, so `per_field[k] = 1.0` also holds when `k` maps to an
explicit JSON `null` on the other side — in particular a `null` value on one
side with `k` absent on the other scores `1.0`, not `0.0`.  The per-field
map is `round4(value_similarity(orig.get(k), synth.get(k)))` over the key
union. -/
theorem C4_amended :
    (∀ (fs : List (String × Json)) (k : String),
      k ∉ fs.map Prod.fst → Plagiarism.getD fs k = Json.null) ∧
    (∀ v : Json, Plagiarism.value_similarity v Json.null = 1 ↔ v = Json.null) ∧
    (∀ fa fb : List (String × Json),
      (Plagiarism.generate_plagiarism_report (.valid (.obj fa))
          (.valid (.obj fb))).per_field =
        (Plagiarism.key_union fa fb).map
          (fun k => (k, Plagiarism.round4
            (Plagiarism.value_similarity (Plagiarism.getD fa k)
              (Plagiarism.getD fb k))))) :=
  ⟨Plagiarism.getD_eq_null_of_not_mem, Plagiarism.value_similarity_null_right,
   fun _ _ => rfl⟩

/-- Witness for C4: an absent key reads as `null`, and the sentinel equals
an explicit `null`. -/
theorem C4_witness :
    Plagiarism.getD [("a", Json.null)] "b" = Json.null ∧
    Plagiarism.value_similarity Json.null Json.null = 1 :=
  ⟨C4_amended.1 [("a", Json.null)] "b" (by simp),
   (C4_amended.2.1 Json.null).mpr rfl⟩

/-! ## Helper lemmas for the privacy transformer -/

namespace SyntheticGenerator

theorem colNames_dropCols (ns : List String) (df : DataFrame) :
    colNames (dropCols ns df) = (colNames df).filter (fun c => !(ns.contains c)) := by
  induction df with
  | nil => rfl
  | cons c df ih =>
    show List.map Prod.fst (List.filter (fun x => !ns.contains x.1) (c :: df)) =
      List.filter (fun x => !ns.contains x) (List.map Prod.fst (c :: df))
    rw [List.map_cons, List.filter_cons, List.filter_cons]
    by_cases hc : ns.contains c.1 = true
    · rw [if_neg (by simpa using hc), if_neg (by simpa using hc)]
      exact ih
    · rw [if_pos (by simpa using hc), if_pos (by simpa using hc), List.map_cons]
      rw [show List.map Prod.fst (List.filter (fun x => !ns.contains x.1) df) =
        List.filter (fun x => !ns.contains x) (List.map Prod.fst df) from ih]

theorem colNames_add_noise (η : String → ℕ → ℚ) (f : ℚ) (df : DataFrame) :
    colNames (add_noise η f df) = colNames df := by
  induction df with
  | nil => rfl
  | cons c df ih =>
    rw [add_noise, colNames, List.map_cons, List.map_cons]
    rw [add_noise, colNames] at ih
    rw [ih]
    congr 1
    split <;> rfl

theorem colNames_mapCol (name : String) (f : Value → Value) (df : DataFrame) :
    colNames (mapCol name f df) = colNames df := by
  induction df with
  | nil => rfl
  | cons c df ih =>
    rw [mapCol, colNames, List.map_cons, List.map_cons]
    rw [mapCol, colNames] at ih
    rw [ih]
    congr 1
    split <;> rfl

/-- The column set after the transformation: exactly the input columns not
listed in `drop_targets level`. -/
theorem colNames_apply (η : String → ℕ → ℚ) (level : PrivacyLevel) (df : DataFrame) :
    colNames (apply_privacy_transformations η level df) =
      (colNames df).filter (fun c => !((drop_targets level).contains c)) := by
  cases level with
  | low => rw [apply_privacy_transformations, colNames_dropCols, drop_targets]
  | medium =>
    rw [apply_privacy_transformations, colNames_add_noise, colNames_dropCols, drop_targets]
  | high =>
    rw [apply_privacy_transformations, colNames_mapCol, colNames_mapCol,
      colNames_add_noise, colNames_dropCols, drop_targets]
  | maximum =>
    rw [apply_privacy_transformations, colNames_dropCols, colNames_mapCol, colNames_mapCol,
      colNames_add_noise, colNames_dropCols, drop_targets, List.filter_filter]
    apply List.filter_congr
    intro c _
    have h : (id_columns ++ location_columns).contains c =
        (id_columns.contains c || location_columns.contains c) := by simp
    rw [h, Bool.not_or, Bool.and_comm]

theorem drop_targets_mono {L Lp : PrivacyLevel} (h : L.rank ≤ Lp.rank) :
    ∀ c, c ∈ drop_targets L → c ∈ drop_targets Lp := by
  cases L <;> cases Lp <;>
    simp_all [PrivacyLevel.rank, drop_targets, low_id_columns, id_columns,
      location_columns]

theorem gen_targets_mono {L Lp : PrivacyLevel} (h : L.rank ≤ Lp.rank) :
    ∀ c, c ∈ gen_targets L → c ∈ gen_targets Lp := by
  cases L <;> cases Lp <;> simp_all [PrivacyLevel.rank, gen_targets]

end SyntheticGenerator

/-- Concrete string-cell oracle used in witnesses. -/
def gs0 : String → ℕ → String := fun _ _ => "s"

/-- Concrete numeric-cell oracle used in witnesses. -/
def gq0 : String → ℕ → ℚ := fun _ _ => 0

/-- Concrete boolean-cell oracle used in witnesses. -/
def gb0 : String → ℕ → Bool := fun _ _ => true

/-- Concrete noise oracle used in witnesses. -/
def eta0 : String → ℕ → ℚ := fun _ _ => 0

/-- C1.  Privacy is monotone over low < medium < high < maximum (compared by
`PrivacyLevel.rank`): for every dataset, a column that level `L` suppresses
(removes from the column set) or generalizes (targets with `pd.cut`/
`replace`, i.e. lies in `gen_targets L`) is also suppressed or generalized
at every level of rank at least `L`'s; and the noise standard-deviation
factor strictly increases 0.01 → 0.05 → 0.1 across medium → high →
maximum. -/
theorem C1_claim :
    (∀ L Lp : SyntheticGenerator.PrivacyLevel, L.rank ≤ Lp.rank →
      ∀ (η ηp : String → ℕ → ℚ) (df : SyntheticGenerator.DataFrame) (c : String),
        c ∈ SyntheticGenerator.colNames df →
        (c ∉ SyntheticGenerator.colNames
            (SyntheticGenerator.apply_privacy_transformations η L df) ∨
          c ∈ SyntheticGenerator.gen_targets L) →
        (c ∉ SyntheticGenerator.colNames
            (SyntheticGenerator.apply_privacy_transformations ηp Lp df) ∨
          c ∈ SyntheticGenerator.gen_targets Lp)) ∧
    (SyntheticGenerator.noise_factor .medium = 1/100 ∧
     SyntheticGenerator.noise_factor .high = 5/100 ∧
     SyntheticGenerator.noise_factor .maximum = 1/10 ∧
     SyntheticGenerator.noise_factor .medium < SyntheticGenerator.noise_factor .high ∧
     SyntheticGenerator.noise_factor .high < SyntheticGenerator.noise_factor .maximum) := by
  constructor
  · intro L Lp hrank η ηp df c hin h
    rw [SyntheticGenerator.colNames_apply] at h ⊢
    rcases h with h | h
    · left
      intro hmem
      apply h
      rw [List.mem_filter] at hmem ⊢
      refine ⟨hin, ?_⟩
      by_contra hL
      simp only [Bool.not_eq_true, Bool.not_eq_false'] at hL
      have hcL : c ∈ SyntheticGenerator.drop_targets L := by
        simpa using hL
      have := SyntheticGenerator.drop_targets_mono hrank c hcL
      have hcLp : (SyntheticGenerator.drop_targets Lp).contains c = true := by
        simpa using this
      rw [hcLp] at hmem
      simp at hmem
    · right
      exact SyntheticGenerator.gen_targets_mono hrank c h
  · refine ⟨rfl, rfl, rfl, by norm_num [SyntheticGenerator.noise_factor],
      by norm_num [SyntheticGenerator.noise_factor]⟩

/-- Witness for C1: `customer_id` is suppressed at low and remains
suppressed at maximum on a concrete customer dataset. -/
theorem C1_witness :
    "customer_id" ∉ SyntheticGenerator.colNames
        (SyntheticGenerator.apply_privacy_transformations eta0 .maximum
          (SyntheticGenerator.customer_df 1 gs0 gq0
            gb0)) ∨
      "customer_id" ∈ SyntheticGenerator.gen_targets .maximum :=
  C1_claim.1 .low .maximum (by decide) eta0 eta0
    (SyntheticGenerator.customer_df 1 gs0 gq0
      gb0)
    "customer_id" (by decide) (Or.inl (by decide))

namespace SyntheticGenerator

theorem colNames_health (n : ℕ) (gs : String → ℕ → String) (gq : String → ℕ → ℚ)
    (gb : String → ℕ → Bool) :
    colNames (health_df n gs gq gb) =
      ["patient_id", "age", "gender", "height_cm", "weight_kg", "blood_pressure_systolic",
       "blood_pressure_diastolic", "heart_rate", "temperature_c", "cholesterol", "glucose",
       "diagnosis", "medication", "admission_date", "discharge_date", "insurance_type"] := rfl

theorem colNames_financial (n : ℕ) (gs : String → ℕ → String) (gq : String → ℕ → ℚ)
    (gb : String → ℕ → Bool) :
    colNames (financial_df n gs gq gb) =
      ["transaction_id", "customer_id", "amount", "currency", "transaction_type",
       "merchant_category", "account_type", "location", "timestamp", "is_fraudulent",
       "credit_score", "income_level"] := rfl

theorem colNames_sensor (n : ℕ) (gs : String → ℕ → String) (gq : String → ℕ → ℚ)
    (gb : String → ℕ → Bool) :
    colNames (sensor_df n gs gq gb) =
      ["sensor_id", "timestamp", "temperature_c", "humidity_percent", "pressure_hpa",
       "light_lux", "motion_detected", "battery_level", "signal_strength", "location_lat",
       "location_lon", "device_status"] := rfl

theorem colNames_customer (n : ℕ) (gs : String → ℕ → String) (gq : String → ℕ → ℚ)
    (gb : String → ℕ → Bool) :
    colNames (customer_df n gs gq gb) =
      ["customer_id", "first_name", "last_name", "email", "phone", "date_of_birth",
       "address", "city", "state", "zip_code", "country", "registration_date", "last_login",
       "total_orders", "total_spent", "loyalty_tier", "preferred_category", "is_active",
       "marketing_consent"] := rfl

theorem colNames_research (n : ℕ) (gs : String → ℕ → String) (gq : String → ℕ → ℚ)
    (gb : String → ℕ → Bool) :
    colNames (research_df n gs gq gb) =
      ["feature_1", "feature_2", "feature_3", "feature_4", "feature_5", "feature_6",
       "feature_7", "feature_8", "feature_9", "feature_10", "target", "participant_id",
       "age", "gender", "education_level", "income_range", "experiment_group",
       "response_time_ms", "accuracy"] := rfl

theorem mem_colNames {df : DataFrame} {c : String} {vals : List Value}
    (h : (c, vals) ∈ df) : c ∈ colNames df := by
  rw [colNames]
  exact List.mem_map.mpr ⟨(c, vals), h, rfl⟩

end SyntheticGenerator

/-- C6 counterexample.  At privacy level low, the low branch drops only
`patient_id`, `customer_id` and `participant_id`: the financial schema's own
primary identifier `transaction_id` and the sensor schema's `sensor_id`
survive the transformation, refuting "drops the schema's own primary
identifier column" for those two data types. -/
theorem C6_counterexample :
    "transaction_id" ∈ SyntheticGenerator.colNames
      (SyntheticGenerator.apply_privacy_transformations eta0 .low
        (SyntheticGenerator.financial_df 1 gs0 gq0 gb0)) ∧
    "sensor_id" ∈ SyntheticGenerator.colNames
      (SyntheticGenerator.apply_privacy_transformations eta0 .low
        (SyntheticGenerator.sensor_df 1 gs0 gq0 gb0)) := by
  constructor <;> decide

/-- C6 as amended.  At privacy level low the transformation drops exactly
the columns `patient_id`, `customer_id`, `participant_id` when present — so
health, customer and research lose their primary identifiers, while
financial keeps `transaction_id` and sensor keeps `sensor_id` — and applies
no noise and no generalization: every column outside those three is kept
with its values verbatim. -/
theorem C6_amended : ∀ (η : String → ℕ → ℚ) (n : ℕ)
    (gs : String → ℕ → String) (gq : String → ℕ → ℚ) (gb : String → ℕ → Bool),
    "patient_id" ∉ SyntheticGenerator.colNames
      (SyntheticGenerator.apply_privacy_transformations η .low
        (SyntheticGenerator.health_df n gs gq gb)) ∧
    "customer_id" ∉ SyntheticGenerator.colNames
      (SyntheticGenerator.apply_privacy_transformations η .low
        (SyntheticGenerator.customer_df n gs gq gb)) ∧
    "participant_id" ∉ SyntheticGenerator.colNames
      (SyntheticGenerator.apply_privacy_transformations η .low
        (SyntheticGenerator.research_df n gs gq gb)) ∧
    "transaction_id" ∈ SyntheticGenerator.colNames
      (SyntheticGenerator.apply_privacy_transformations η .low
        (SyntheticGenerator.financial_df n gs gq gb)) ∧
    "sensor_id" ∈ SyntheticGenerator.colNames
      (SyntheticGenerator.apply_privacy_transformations η .low
        (SyntheticGenerator.sensor_df n gs gq gb)) ∧
    (∀ (df : SyntheticGenerator.DataFrame) (c : String)
        (vals : List SyntheticGenerator.Value),
      (c, vals) ∈ df → c ∉ SyntheticGenerator.low_id_columns →
      (c, vals) ∈ SyntheticGenerator.apply_privacy_transformations η .low df) := by
  intro η n gs gq gb
  refine ⟨?_, ?_, ?_, ?_, ?_, ?_⟩
  · rw [SyntheticGenerator.colNames_apply, SyntheticGenerator.colNames_health]
    decide
  · rw [SyntheticGenerator.colNames_apply, SyntheticGenerator.colNames_customer]
    decide
  · rw [SyntheticGenerator.colNames_apply, SyntheticGenerator.colNames_research]
    decide
  · rw [SyntheticGenerator.colNames_apply, SyntheticGenerator.colNames_financial]
    decide
  · rw [SyntheticGenerator.colNames_apply, SyntheticGenerator.colNames_sensor]
    decide
  · intro df c vals h hc
    show (c, vals) ∈ List.filter
      (fun p => !(SyntheticGenerator.low_id_columns.contains p.1)) df
    rw [List.mem_filter]
    exact ⟨h, by simpa using hc⟩

/-- Witness for C6: a concrete non-identifier financial column survives the
low transformation with its values untouched. -/
theorem C6_witness :
    ("amount", [SyntheticGenerator.Value.vNum 0]) ∈
      SyntheticGenerator.apply_privacy_transformations eta0 .low
        (SyntheticGenerator.financial_df 1 gs0 gq0 gb0) :=
  (C6_amended eta0 1 gs0 gq0 gb0).2.2.2.2.2
    (SyntheticGenerator.financial_df 1 gs0 gq0 gb0) "amount"
    [SyntheticGenerator.Value.vNum 0] (by decide) (by decide)

/-- C5.  For every positive size, `generate_dataset(customer_data, size,
maximum)` contains no identifier columns and no location columns (the
designated `id_columns` and `location_columns` of the transformer), and
every value of an `"age"` column, were one present, would be one of
Young/Middle-aged/Senior (the customer schema has no `age` column, so the
bucket condition holds for all of its — zero — cells). -/
theorem C5_claim : ∀ n : ℕ, 0 < n →
    ∀ (gs : String → ℕ → String) (gq : String → ℕ → ℚ) (gb : String → ℕ → Bool)
      (η : String → ℕ → ℚ),
    (∀ c ∈ SyntheticGenerator.colNames
        (SyntheticGenerator.generate_dataset gs gq gb η .customer_data n .maximum),
      c ∉ SyntheticGenerator.id_columns ∧ c ∉ SyntheticGenerator.location_columns) ∧
    (∀ vals : List SyntheticGenerator.Value,
      ("age", vals) ∈
        SyntheticGenerator.generate_dataset gs gq gb η .customer_data n .maximum →
      ∀ v ∈ vals, v = .vStr "Young" ∨ v = .vStr "Middle-aged" ∨ v = .vStr "Senior") := by
  intro n hn gs gq gb η
  have hnames : SyntheticGenerator.colNames
      (SyntheticGenerator.generate_dataset gs gq gb η .customer_data n .maximum) =
      (SyntheticGenerator.colNames (SyntheticGenerator.customer_df n gs gq gb)).filter
        (fun c => !((SyntheticGenerator.drop_targets .maximum).contains c)) :=
    SyntheticGenerator.colNames_apply η .maximum (SyntheticGenerator.customer_df n gs gq gb)
  rw [SyntheticGenerator.colNames_customer] at hnames
  constructor
  · have hall : ∀ c ∈ (["customer_id", "first_name", "last_name", "email", "phone",
        "date_of_birth", "address", "city", "state", "zip_code", "country",
        "registration_date", "last_login", "total_orders", "total_spent", "loyalty_tier",
        "preferred_category", "is_active", "marketing_consent"] : List String).filter
          (fun c => !((SyntheticGenerator.drop_targets .maximum).contains c)),
        c ∉ SyntheticGenerator.id_columns ∧ c ∉ SyntheticGenerator.location_columns := by
      decide
    intro c hc
    rw [hnames] at hc
    exact hall c hc
  · intro vals hv v _
    exfalso
    have hmem : "age" ∈ SyntheticGenerator.colNames
        (SyntheticGenerator.generate_dataset gs gq gb η .customer_data n .maximum) :=
      SyntheticGenerator.mem_colNames hv
    rw [hnames] at hmem
    exact absurd hmem (by decide)

/-- Witness for C5 at size 1: the surviving `country` column is neither an
identifier nor a location column. -/
theorem C5_witness :
    "country" ∉ SyntheticGenerator.id_columns ∧
    "country" ∉ SyntheticGenerator.location_columns :=
  (C5_claim 1 (by norm_num) gs0 gq0 gb0 eta0).1 "country" (by decide)

namespace SyntheticGenerator

/-- `df[c]`: the cell list of the first column named `c`, when present. -/
def lookupCol (c : String) (df : DataFrame) : Option (List Value) :=
  (df.find? (fun p => p.1 == c)).map Prod.snd

theorem find?_cons_pos {α : Type} (p : α → Bool) (a : α) (l : List α) (h : p a = true) :
    List.find? p (a :: l) = some a := by
  simp [List.find?, h]

theorem find?_cons_neg {α : Type} (p : α → Bool) (a : α) (l : List α) (h : p a = false) :
    List.find? p (a :: l) = List.find? p l := by
  simp [List.find?, h]

theorem noise_vals_id (g : ℕ → ℚ) :
    ∀ (k : ℕ) (vals : List Value), (∀ v ∈ vals, isNum v = false) →
      (List.enumFrom k vals).map (fun p => noiseCell (g p.1) p.2) = vals
  | _, [], _ => rfl
  | k, v :: vs, h => by
    rw [List.enumFrom, List.map_cons]
    have hv := h v (List.mem_cons_self _ _)
    have hrec := noise_vals_id g (k + 1) vs (fun x hx => h x (List.mem_cons_of_mem _ hx))
    rw [hrec]
    congr 1
    cases v with
    | vNum q => simp [isNum] at hv
    | vNull => rfl
    | vBool b => rfl
    | vStr s => rfl

theorem lookupCol_cons_pos (c : String) (p : String × List Value) (df : DataFrame)
    (h : (p.1 == c) = true) : lookupCol c (p :: df) = some p.2 := by
  simp [lookupCol, List.find?, h]

theorem lookupCol_cons_neg (c : String) (p : String × List Value) (df : DataFrame)
    (h : (p.1 == c) = false) : lookupCol c (p :: df) = lookupCol c df := by
  simp [lookupCol, List.find?, h]

theorem lookupCol_dropCols (ns : List String) (c : String) (df : DataFrame)
    (hc : ns.contains c = false) :
    lookupCol c (dropCols ns df) = lookupCol c df := by
  induction df with
  | nil => rfl
  | cons p df ih =>
    rw [dropCols, List.filter_cons]
    by_cases hp : (p.1 == c) = true
    · have hpc : p.1 = c := eq_of_beq hp
      rw [if_pos (by rw [hpc]; simpa using hc)]
      rw [lookupCol_cons_pos c p _ hp, lookupCol_cons_pos c p _ hp]
    · have hp2 : (p.1 == c) = false := by simpa using hp
      rw [lookupCol_cons_neg c p _ hp2]
      split
      · rw [lookupCol_cons_neg c p _ hp2]
        rw [dropCols] at ih
        exact ih
      · rw [dropCols] at ih
        exact ih

theorem lookupCol_add_noise (η : String → ℕ → ℚ) (f : ℚ) (c : String) (df : DataFrame)
    (vals : List Value) (hstr : ∀ v ∈ vals, isNum v = false)
    (h : lookupCol c df = some vals) :
    lookupCol c (add_noise η f df) = some vals := by
  induction df with
  | nil => simp [lookupCol] at h
  | cons p df ih =>
    rw [add_noise, List.map_cons]
    by_cases hp : (p.1 == c) = true
    · rw [lookupCol_cons_pos c p df hp] at h
      have h2 : p.2 = vals := by simpa using h
      by_cases hguard : p.1 ≠ "target" ∧ isNumericCol p.2 = true
      · rw [if_pos hguard]
        rw [lookupCol_cons_pos c (p.1, p.2.enum.map fun q => noiseCell (f * η p.1 q.1) q.2)
          _ hp]
        rw [show (p.1, p.2.enum.map fun q => noiseCell (f * η p.1 q.1) q.2).2 =
          p.2.enum.map fun q => noiseCell (f * η p.1 q.1) q.2 from rfl]
        rw [show p.2.enum = List.enumFrom 0 p.2 from rfl, h2]
        exact congrArg some (noise_vals_id (fun i => f * η p.1 i) 0 vals hstr)
      · rw [if_neg hguard, lookupCol_cons_pos c p _ hp, h2]
    · have hp2 : (p.1 == c) = false := by simpa using hp
      rw [lookupCol_cons_neg c p df hp2] at h
      rw [add_noise] at ih
      split
      · rw [lookupCol_cons_neg c
          (p.1, p.2.enum.map fun q => noiseCell (f * η p.1 q.1) q.2) _ hp2]
        exact ih h
      · rw [lookupCol_cons_neg c p _ hp2]
        exact ih h

theorem lookupCol_mapCol (name : String) (f : Value → Value) (c : String) (df : DataFrame)
    (vals : List Value) (hne : c ≠ name) (h : lookupCol c df = some vals) :
    lookupCol c (mapCol name f df) = some vals := by
  induction df with
  | nil => simp [lookupCol] at h
  | cons p df ih =>
    rw [mapCol, List.map_cons]
    by_cases hp : (p.1 == c) = true
    · have hpc : p.1 = c := eq_of_beq hp
      rw [lookupCol_cons_pos c p df hp] at h
      rw [if_neg (by rw [hpc]; exact hne)]
      rw [lookupCol_cons_pos c p _ hp]
      exact h
    · have hp2 : (p.1 == c) = false := by simpa using hp
      rw [lookupCol_cons_neg c p df hp2] at h
      rw [mapCol] at ih
      split
      · rw [lookupCol_cons_neg c (p.1, p.2.map f) _ hp2]
        exact ih h
      · rw [lookupCol_cons_neg c p _ hp2]
        exact ih h

/-- A non-target, non-generalized, all-string column that survives the
drops keeps its exact values through the whole transformation. -/
theorem lookupCol_apply_str (η : String → ℕ → ℚ) (L : PrivacyLevel) (df : DataFrame)
    (c : String) (vals : List Value)
    (hdrop : (drop_targets L).contains c = false)
    (hage : c ≠ "age") (hinc : c ≠ "income_range")
    (hstr : ∀ v ∈ vals, isNum v = false)
    (h : lookupCol c df = some vals) :
    lookupCol c (apply_privacy_transformations η L df) = some vals := by
  cases L with
  | low =>
    rw [apply_privacy_transformations,
      lookupCol_dropCols _ _ _ (show low_id_columns.contains c = false from hdrop)]
    exact h
  | medium =>
    rw [apply_privacy_transformations]
    exact lookupCol_add_noise _ _ _ _ _ hstr
      (by rw [lookupCol_dropCols _ _ _ (show id_columns.contains c = false from hdrop)]
          exact h)
  | high =>
    rw [apply_privacy_transformations]
    apply lookupCol_mapCol _ _ _ _ _ hinc
    apply lookupCol_mapCol _ _ _ _ _ hage
    exact lookupCol_add_noise _ _ _ _ _ hstr
      (by rw [lookupCol_dropCols _ _ _ (show id_columns.contains c = false from hdrop)]
          exact h)
  | maximum =>
    rw [apply_privacy_transformations]
    have hsplit : (drop_targets .maximum).contains c =
        (id_columns.contains c || location_columns.contains c) := by
      rw [drop_targets]
      simp
    rw [hsplit] at hdrop
    have hloc : location_columns.contains c = false := (Bool.or_eq_false_iff.mp hdrop).2
    have hid : id_columns.contains c = false := (Bool.or_eq_false_iff.mp hdrop).1
    rw [lookupCol_dropCols _ _ _ hloc]
    apply lookupCol_mapCol _ _ _ _ _ hinc
    apply lookupCol_mapCol _ _ _ _ _ hage
    exact lookupCol_add_noise _ _ _ _ _ hstr
      (by rw [lookupCol_dropCols _ _ _ hid]
          exact h)

end SyntheticGenerator

/-- C10 (implicit frame effect).  For every positive size and every privacy
level, the customer dataset's `first_name`, `last_name`, `email`, `phone`
and `country` columns are still present after
`generate_dataset(customer_data, size, L)` and hold exactly the generated
values — no tier suppresses, noises, or generalizes these non-numeric
quasi-identifier columns. -/
theorem C10_claim : ∀ n : ℕ, 0 < n →
    ∀ (gs : String → ℕ → String) (gq : String → ℕ → ℚ) (gb : String → ℕ → Bool)
      (η : String → ℕ → ℚ) (L : SyntheticGenerator.PrivacyLevel),
    ∀ c ∈ (["first_name", "last_name", "email", "phone", "country"] : List String),
      SyntheticGenerator.lookupCol c
          (SyntheticGenerator.generate_dataset gs gq gb η .customer_data n L) =
        some (SyntheticGenerator.strCol gs c n) ∧
      SyntheticGenerator.lookupCol c (SyntheticGenerator.customer_df n gs gq gb) =
        some (SyntheticGenerator.strCol gs c n) := by
  intro n hn gs gq gb η L c hc
  have hc5 : c = "first_name" ∨ c = "last_name" ∨ c = "email" ∨ c = "phone" ∨
      c = "country" := by simpa using hc
  have hbase : SyntheticGenerator.lookupCol c (SyntheticGenerator.customer_df n gs gq gb) =
      some (SyntheticGenerator.strCol gs c n) := by
    rcases hc5 with rfl | rfl | rfl | rfl | rfl <;> rfl
  have hstr : ∀ v ∈ SyntheticGenerator.strCol gs c n, SyntheticGenerator.isNum v = false := by
    intro v hv
    rw [SyntheticGenerator.strCol] at hv
    rw [List.mem_map] at hv
    obtain ⟨i, _, rfl⟩ := hv
    rfl
  have hdrop : (SyntheticGenerator.drop_targets L).contains c = false := by
    cases L <;> rcases hc5 with rfl | rfl | rfl | rfl | rfl <;> decide
  have hage : c ≠ "age" := by
    rcases hc5 with rfl | rfl | rfl | rfl | rfl <;> decide
  have hinc : c ≠ "income_range" := by
    rcases hc5 with rfl | rfl | rfl | rfl | rfl <;> decide
  exact ⟨SyntheticGenerator.lookupCol_apply_str η L _ c _ hdrop hage hinc hstr hbase, hbase⟩

/-- Witness for C10 at size 1, maximum privacy, concrete oracles. -/
theorem C10_witness :
    SyntheticGenerator.lookupCol "country"
        (SyntheticGenerator.generate_dataset gs0 gq0 gb0 eta0 .customer_data 1 .maximum) =
      some (SyntheticGenerator.strCol gs0 "country" 1) ∧
    SyntheticGenerator.lookupCol "country"
        (SyntheticGenerator.customer_df 1 gs0 gq0 gb0) =
      some (SyntheticGenerator.strCol gs0 "country" 1) :=
  C10_claim 1 (by norm_num) gs0 gq0 gb0 eta0 .maximum "country" (by simp)

/-! ## Shape preservation of the parameter masking -/

/-- The leaf-erased shape of a JSON value: lists keep their element shapes,
mappings keep their keyed field shapes, every scalar (null, boolean, number,
string) collapses to `leaf`.  Two values with equal shapes have the same
key set at every mapping level and the same length for every sequence, and
differ only in leaf scalars. -/
inductive JShape where
  | leaf : JShape
  | arr (elems : List JShape) : JShape
  | obj (fields : List (String × JShape)) : JShape

mutual

/-- The shape of a JSON value. -/
def shapeOf : Json → JShape
  | .null => .leaf
  | .bool _ => .leaf
  | .num _ => .leaf
  | .str _ => .leaf
  | .arr vs => .arr (shapeOfList vs)
  | .obj fs => .obj (shapeOfFields fs)

/-- The shapes of a list of JSON values. -/
def shapeOfList : List Json → List JShape
  | [] => []
  | v :: vs => shapeOf v :: shapeOfList vs

/-- The keyed shapes of a mapping's fields. -/
def shapeOfFields : List (String × Json) → List (String × JShape)
  | [] => []
  | (k, v) :: fs => (k, shapeOf v) :: shapeOfFields fs

end

/-- A JSON scalar: not a sequence and not a mapping. -/
def scalarJson : Json → Bool
  | .arr _ => false
  | .obj _ => false
  | _ => true

/-- The top-level per-field relation of the amended C2: if the input field
holds a list, the output field holds a list of the same length. -/
def TopLenPreserved (p q : String × Json) : Prop :=
  ∀ vs : List Json, p.2 = Json.arr vs →
    ∃ vs2 : List Json, q.2 = Json.arr vs2 ∧ vs2.length = vs.length

namespace DataMasking

mutual

theorem shape_mask_value (w : ℕ → String) :
    ∀ (j : Json) (k : ℕ), shapeOf (mask_generic_value w j k).1 = shapeOf j
  | .str _, k => rfl
  | .num _, k => rfl
  | .bool _, k => rfl
  | .null, k => rfl
  | .arr vs, k => by
    rw [mask_generic_value]
    show JShape.arr (shapeOfList (mask_generic_list w vs k).1) = _
    rw [shape_mask_list w vs k]
    rfl
  | .obj fs, k => by
    rw [mask_generic_value]
    show JShape.obj (shapeOfFields (mask_generic_fields w fs k).1) = _
    rw [shape_mask_fields w fs k]
    rfl

theorem shape_mask_list (w : ℕ → String) :
    ∀ (vs : List Json) (k : ℕ), shapeOfList (mask_generic_list w vs k).1 = shapeOfList vs
  | [], k => rfl
  | v :: vs, k => by
    rw [mask_generic_list]
    show shapeOf (mask_generic_value w v k).1 ::
      shapeOfList (mask_generic_list w vs (mask_generic_value w v k).2).1 = _
    rw [shape_mask_value w v k, shape_mask_list w vs (mask_generic_value w v k).2]
    rfl

theorem shape_mask_fields (w : ℕ → String) :
    ∀ (fs : List (String × Json)) (k : ℕ),
      shapeOfFields (mask_generic_fields w fs k).1 = shapeOfFields fs
  | [], k => rfl
  | (key, v) :: fs, k => by
    rw [mask_generic_fields]
    show (key, shapeOf (mask_generic_value w v k).1) ::
      shapeOfFields (mask_generic_fields w fs (mask_generic_value w v k).2).1 = _
    rw [shape_mask_value w v k, shape_mask_fields w fs (mask_generic_value w v k).2]
    rfl

end

theorem keys_mask_top (w nm : ℕ → String) (ch : ℕ → ℕ) :
    ∀ (fs : List (String × Json)) (k : ℕ),
      (mask_top_fields w nm ch fs k).map Prod.fst = fs.map Prod.fst
  | [], _ => rfl
  | (key, v) :: fs, k => by
    rw [mask_top_fields, List.map_cons, List.map_cons,
      keys_mask_top w nm ch fs (mask_field w nm ch key v k).2]

theorem length_mask_name_list (nm : ℕ → String) (vs : List Json) (k : ℕ) :
    (mask_name_list nm vs k).length = vs.length := by
  rw [mask_name_list, List.length_map, List.enum_length]

theorem length_mask_country_list (ch : ℕ → ℕ) (vs : List Json) (k : ℕ) :
    (mask_country_list ch vs k).length = vs.length := by
  rw [mask_country_list, List.length_map, List.enum_length]

theorem length_shapeOfList : ∀ vs : List Json, (shapeOfList vs).length = vs.length
  | [] => rfl
  | v :: vs => by rw [shapeOfList, List.length_cons, List.length_cons,
      length_shapeOfList vs]

theorem length_mask_generic_list (w : ℕ → String) (vs : List Json) (k : ℕ) :
    (mask_generic_list w vs k).1.length = vs.length := by
  have h := shape_mask_list w vs k
  have h1 := length_shapeOfList (mask_generic_list w vs k).1
  have h2 := length_shapeOfList vs
  rw [h] at h1
  omega

theorem mask_field_len_preserved (w nm : ℕ → String) (ch : ℕ → ℕ)
    (key : String) (v : Json) (k : ℕ) :
    TopLenPreserved (key, v) (key, (mask_field w nm ch key v k).1) := by
  intro vs hv
  simp only at hv
  subst hv
  rw [mask_field]
  split
  · exact ⟨mask_name_list nm vs k, rfl, length_mask_name_list nm vs k⟩
  · split
    · exact ⟨mask_country_list ch vs k, rfl, length_mask_country_list ch vs k⟩
    · rw [mask_generic_value]
      exact ⟨(mask_generic_list w vs k).1, rfl, length_mask_generic_list w vs k⟩

theorem forall2_mask_top (w nm : ℕ → String) (ch : ℕ → ℕ) :
    ∀ (fs : List (String × Json)) (k : ℕ),
      List.Forall₂ TopLenPreserved fs (mask_top_fields w nm ch fs k)
  | [], _ => List.Forall₂.nil
  | (key, v) :: fs, k => by
    rw [mask_top_fields]
    exact List.Forall₂.cons (mask_field_len_preserved w nm ch key v k)
      (forall2_mask_top w nm ch fs (mask_field w nm ch key v k).2)

end DataMasking

namespace DataMasking

theorem shapeOf_scalar (v : Json) (h : scalarJson v = true) : shapeOf v = .leaf := by
  cases v <;> first | rfl | simp [scalarJson] at h

theorem shapeOfList_scalars : ∀ vs : List Json, (∀ x ∈ vs, scalarJson x = true) →
    shapeOfList vs = List.replicate vs.length .leaf
  | [], _ => rfl
  | v :: vs, h => by
    rw [shapeOfList, List.length_cons, List.replicate_succ,
      shapeOf_scalar v (h v (List.mem_cons_self _ _)),
      shapeOfList_scalars vs (fun x hx => h x (List.mem_cons_of_mem _ hx))]

theorem shapeOfList_map_str {α : Type} (f : α → String) :
    ∀ l : List α, shapeOfList (l.map fun a => Json.str (f a)) = List.replicate l.length .leaf
  | [] => rfl
  | a :: l => by
    rw [List.map_cons, shapeOfList, List.length_cons, List.replicate_succ,
      shapeOfList_map_str f l]
    rfl

theorem shapeOfList_mask_name (nm : ℕ → String) (vs : List Json) (k : ℕ) :
    shapeOfList (mask_name_list nm vs k) = List.replicate vs.length .leaf := by
  rw [mask_name_list]
  rw [shapeOfList_map_str (fun p : ℕ × Json => nm (k + p.1)) vs.enum, List.enum_length]

theorem shapeOfList_mask_country (ch : ℕ → ℕ) (vs : List Json) (k : ℕ) :
    shapeOfList (mask_country_list ch vs k) = List.replicate vs.length .leaf := by
  rw [mask_country_list]
  rw [shapeOfList_map_str
    (fun p : ℕ × Json => country_pool.getD (ch (k + p.1) % country_pool.length) "") vs.enum,
    List.enum_length]

theorem shape_mask_field (w nm : ℕ → String) (ch : ℕ → ℕ) (key : String) (v : Json) (k : ℕ)
    (hscal : ∀ vs, v = Json.arr vs →
      (lowerKey key = "name" ∨ lowerKey key = "country") →
      ∀ x ∈ vs, scalarJson x = true) :
    shapeOf (mask_field w nm ch key v k).1 = shapeOf v := by
  rw [mask_field.eq_def]
  split
  · rename_i vs
    split
    · rename_i hname
      show shapeOf (.arr (mask_name_list nm vs k)) = _
      rw [show shapeOf (.arr (mask_name_list nm vs k)) =
          .arr (shapeOfList (mask_name_list nm vs k)) from rfl,
        show shapeOf (.arr vs) = .arr (shapeOfList vs) from rfl,
        shapeOfList_mask_name, shapeOfList_scalars vs (hscal vs rfl (Or.inl hname))]
    · split
      · rename_i hcountry
        show shapeOf (.arr (mask_country_list ch vs k)) = _
        rw [show shapeOf (.arr (mask_country_list ch vs k)) =
            .arr (shapeOfList (mask_country_list ch vs k)) from rfl,
          show shapeOf (.arr vs) = .arr (shapeOfList vs) from rfl,
          shapeOfList_mask_country, shapeOfList_scalars vs (hscal vs rfl (Or.inr ‹_›))]
      · exact shape_mask_value w _ k
  · exact shape_mask_value w _ k

theorem shape_mask_top (w nm : ℕ → String) (ch : ℕ → ℕ) :
    ∀ (fs : List (String × Json)) (k : ℕ),
      (∀ p ∈ fs, ∀ vs, p.2 = Json.arr vs →
        (lowerKey p.1 = "name" ∨ lowerKey p.1 = "country") →
        ∀ x ∈ vs, scalarJson x = true) →
      shapeOfFields (mask_top_fields w nm ch fs k) = shapeOfFields fs
  | [], _, _ => rfl
  | (key, v) :: fs, k, h => by
    rw [mask_top_fields, shapeOfFields, shapeOfFields]
    rw [shape_mask_field w nm ch key v k
      (fun vs hv => h (key, v) (List.mem_cons_self _ _) vs hv)]
    rw [shape_mask_top w nm ch fs (mask_field w nm ch key v k).2
      (fun p hp => h p (List.mem_cons_of_mem _ hp))]

end DataMasking

/-- C2 counterexample.  When a top-level `"name"` key holds a list whose
element is itself a mapping, `_mask_name_list` replaces that element by a
single fake-name string: the nested mapping `{"a": 1}` disappears, so its
key set is not preserved and a non-leaf value was substituted — the
leaf-erased shapes of input and output differ. -/
theorem C2_counterexample :
    DataMasking.generate_synthetic_params (fun _ => "w") (fun _ => "X") (fun _ => 0)
      (.valid (.obj [("name", .arr [.obj [("a", .num 1)]])])) =
      some (.obj [("name", .arr [.str "X"])]) ∧
    shapeOf (.obj [("name", .arr [.str "X"])]) ≠
      shapeOf (.obj [("name", .arr [.obj [("a", .num 1)]])]) := by
  constructor
  · rfl
  · intro h
    simp [shapeOf, shapeOfList, shapeOfFields] at h

/-- C2 as amended.  For every text parsing as a JSON mapping, the masked
output is a mapping with the identical (ordered) top-level key set, and
every top-level list-valued field maps to a list of the same length.  The
full shape (every nested mapping's key set, every nested sequence's length,
only leaf scalars substituted) is preserved provided the elements of
top-level case-insensitive `"name"`/`"country"` list values are scalars —
the counterexample shows those two special-cased fields flatten any
non-scalar elements, which is all the original claim must give up. -/
theorem C2_amended : ∀ (w nm : ℕ → String) (ch : ℕ → ℕ)
    (fs : List (String × Json)) (out : Json),
    DataMasking.generate_synthetic_params w nm ch (.valid (.obj fs)) = some out →
    ∃ gs : List (String × Json), out = .obj gs ∧
      gs.map Prod.fst = fs.map Prod.fst ∧
      List.Forall₂ TopLenPreserved fs gs ∧
      ((∀ p ∈ fs, ∀ vs, p.2 = Json.arr vs →
          (DataMasking.lowerKey p.1 = "name" ∨ DataMasking.lowerKey p.1 = "country") →
          ∀ x ∈ vs, scalarJson x = true) →
        shapeOf out = shapeOf (.obj fs)) := by
  intro w nm ch fs out h
  have hout : out = .obj (DataMasking.mask_top_fields w nm ch fs 0) := by
    have h2 : some (Json.obj (DataMasking.mask_top_fields w nm ch fs 0)) = some out := h
    exact (Option.some.injEq _ _ ▸ h2).symm
  refine ⟨DataMasking.mask_top_fields w nm ch fs 0, hout,
    DataMasking.keys_mask_top w nm ch fs 0, DataMasking.forall2_mask_top w nm ch fs 0, ?_⟩
  intro hscal
  rw [hout]
  show JShape.obj (shapeOfFields (DataMasking.mask_top_fields w nm ch fs 0)) =
    JShape.obj (shapeOfFields fs)
  rw [DataMasking.shape_mask_top w nm ch fs 0 hscal]

/-- Witness for C2 at a concrete two-field mapping. -/
theorem C2_witness :
    ∃ gs : List (String × Json),
      Json.obj [("name", Json.arr [Json.str "X"]), ("note", Json.str "w")] = .obj gs ∧
      gs.map Prod.fst =
        ([("name", Json.arr [Json.str "Alice"]), ("note", Json.str "hi")] :
          List (String × Json)).map Prod.fst ∧
      List.Forall₂ TopLenPreserved
        [("name", Json.arr [Json.str "Alice"]), ("note", Json.str "hi")] gs ∧
      ((∀ p ∈ ([("name", Json.arr [Json.str "Alice"]), ("note", Json.str "hi")] :
            List (String × Json)), ∀ vs, p.2 = Json.arr vs →
          (DataMasking.lowerKey p.1 = "name" ∨ DataMasking.lowerKey p.1 = "country") →
          ∀ x ∈ vs, scalarJson x = true) →
        shapeOf (Json.obj [("name", Json.arr [Json.str "X"]), ("note", Json.str "w")]) =
          shapeOf (.obj [("name", Json.arr [Json.str "Alice"]), ("note", Json.str "hi")])) :=
  C2_amended (fun _ => "w") (fun _ => "X") (fun _ => 0)
    [("name", .arr [.str "Alice"]), ("note", .str "hi")]
    (.obj [("name", .arr [.str "X"]), ("note", .str "w")]) rfl
